import Mathlib

/-!
# sns2ps-api: the HTTP service layer of `main.go`

A shallow embedding of `main.go`: the three handlers (`healthCheck`,
`getMatchInfo`, `getRegistration`), the argument validation, the two
environment readers and the start-up of `main`.

* Go strings are byte sequences.
* An `http.ResponseWriter` is a record that is threaded through the handler.
* The functions of the packages `entities`, `practiscorecsv`, `encoding/json`
  and `encoding/csv` are fields of `Deps`; every call of a remote fetch is
  recorded, with its arguments, in the result of the handler.
* A Go run-time panic (nil dereference, failed type assertion) ends the handler
  with `panicked := true`.
* Output written with the `log` package and `fmt.Println` is not part of the
  response and is left out of the handlers; the mode report of `main` is kept.
-/

namespace Sns2psApi

/-! ## Strings, environment, form values -/

/-- A Go `string`: an immutable sequence of bytes; `len` is `List.length`. -/
abbrev GoString := List UInt8

/-- The bytes (UTF-8) of a string literal of the source. -/
def str (s : String) : GoString := s.toUTF8.data.toList

/-- Go `strings.ReplaceAll(s, old, new)` for a non-empty `old`: the leftmost,
non-overlapping occurrences of `old` are replaced by `new`.  The first argument
counts the bytes of an occurrence that are still to be skipped. -/
def ReplaceAllAux (old new : GoString) : Nat → GoString → GoString
  | _, [] => []
  | k + 1, _ :: cs => ReplaceAllAux old new k cs
  | 0, c :: cs =>
    if old.isPrefixOf (c :: cs) then new ++ ReplaceAllAux old new (old.length - 1) cs
    else c :: ReplaceAllAux old new 0 cs

/-- Go `strings.ReplaceAll` (called in `main.go` with the one-byte pattern `" "`). -/
def ReplaceAll (s old new : GoString) : GoString := ReplaceAllAux old new 0 s

/-- The process environment: the list of `NAME=value` pairs. -/
abbrev Environ := List (GoString × GoString)

/-- Go `os.Getenv`: the value of the variable, empty when it is not present. -/
def Getenv (env : Environ) (key : GoString) : GoString :=
  match env.find? (fun kv => kv.1 == key) with
  | some kv => kv.2
  | none => []

/-- Go `url.Values`: a key with its list of values. -/
abbrev Values := List (GoString × List GoString)

/-- Go `url.Values.Get`: the first value of the key, empty when there is none. -/
def valuesGet (v : Values) (key : GoString) : GoString :=
  match v.find? (fun kv => kv.1 == key) with
  | some (_, x :: _) => x
  | _ => []

/-! ## The response writer of `net/http` -/

/-- Go `http.Header`, with one value per key. -/
abbrev Header := List (GoString × GoString)

/-- Go `Header.Set`: the value of the key is replaced. -/
def headerSet (h : Header) (key value : GoString) : Header :=
  (key, value) :: h.filter (fun kv => kv.1 != key)

/-- Go `Header.Get`. -/
def headerGet (h : Header) (key : GoString) : GoString :=
  match h.find? (fun kv => kv.1 == key) with
  | some kv => kv.2
  | none => []

/-- An `http.ResponseWriter`.  `header` is the map returned by `w.Header()`;
`status` and `sent` are the status line and the header that went out when the
response was committed (`wroteHeader`); `body` is what was written after it. -/
structure ResponseWriter where
  header : Header
  wroteHeader : Bool
  status : Nat
  sent : Header
  body : GoString
deriving DecidableEq

/-- The writer a handler receives: nothing committed yet; `h` holds the header
fields set before the handler runs (the CORS middleware may add some). -/
def newResponseWriter (h : Header) : ResponseWriter :=
  { header := h, wroteHeader := false, status := 0, sent := [], body := [] }

/-- Go `w.WriteHeader(code)`: commits status and header once; a later call is
superfluous and changes nothing. -/
def ResponseWriter.WriteHeader (w : ResponseWriter) (code : Nat) : ResponseWriter :=
  if w.wroteHeader then w
  else { w with wroteHeader := true, status := code, sent := w.header }

/-- Go `w.Header().Set(key, value)`: changes the header map; after the response
is committed the change is not sent. -/
def ResponseWriter.SetHeader (w : ResponseWriter) (key value : GoString) : ResponseWriter :=
  { w with header := headerSet w.header key value }

/-- Go `w.Write(data)` (also `fmt.Fprintf(w, ...)`): when `WriteHeader` was not
called yet, it is called with `http.StatusOK` first. -/
def ResponseWriter.Write (w : ResponseWriter) (data : GoString) : ResponseWriter :=
  let w1 := w.WriteHeader 200
  { w1 with body := w1.body ++ data }

/-! ## Data of `main.go` and of the packages it calls -/

/-- The struct `snsinfo`. -/
structure snsinfo where
  MatchID : GoString
  SNSUsername : GoString
  SNSPassword : GoString
deriving DecidableEq

/-- The constant `baseURL`. -/
def baseURL : GoString := str "https://shootnscoreit.com/api/ipsc/match/"

/-- The match that `entities.Match` points to; `main.go` reads `MatchName` only. -/
structure MatchStruct where
  MatchName : GoString
deriving DecidableEq

/-- A non-nil Go `error`: a `*requests.HTTPError` with its `StatusCode`, or a
value of another dynamic type. -/
inductive GoError where
  | HTTPError (StatusCode : Int)
  | other
deriving DecidableEq

/-- A call of one of the three remote fetches, with the URL, the credentials
and the boolean that `main.go` passes last (its variable `liveMode`, which
`getMatchInfo` logs as "UseLocal"). -/
inductive Call where
  | Match (url username password : GoString) (useLocal : Bool)
  | Squads (url username password : GoString) (useLocal : Bool)
  | Competitors (url username password : GoString) (useLocal : Bool)
deriving DecidableEq

/-- The boolean passed last to a remote fetch. -/
def Call.useLocal : Call → Bool
  | .Match _ _ _ b => b
  | .Squads _ _ _ b => b
  | .Competitors _ _ _ b => b

/-- The functions `main.go` imports.  Pointer results are `Option`s (`none` is
`nil`), a Go `error` is an `Option GoError`.
* `Unmarshal body` is `json.Unmarshal(body, &snsInfo)` on a zero `snsinfo`: the
  struct afterwards and whether an error was returned;
* `Categories`, `Divisions`, `Regions` are the lookup tables;
* `Match`, `Squads`, `Competitors` are the fetches of package `entities`;
* `header` and `row` are the header row and the row of one competitor of
  `practiscorecsv`;
* `csvEncode` is the text `csv.Writer.Write` produces for one record. -/
structure Deps (Lookup SquadsT Competitor : Type) where
  Unmarshal : GoString → snsinfo × Bool
  Categories : Lookup
  Divisions : Lookup
  Regions : Lookup
  Match : GoString → GoString → GoString → Bool → Option MatchStruct × Option GoError
  Squads : GoString → GoString → GoString → Bool → Option SquadsT × Option GoError
  Competitors : GoString → Lookup → Lookup → MatchStruct → Lookup → SquadsT →
    GoString → GoString → Bool → Option (List Competitor) × Option GoError
  header : List GoString
  row : Competitor → List GoString
  csvEncode : List GoString → GoString

/-- Modelled from the spec: `practiscorecsv.CSVContent` is not part of `main.go`.
The tabular exporter renders the competitor collection as a header row followed
by one row per competitor, in the order of the collection. -/
def CSVContent {Competitor : Type} (header : List GoString)
    (row : Competitor → List GoString) (competitors : List Competitor) :
    List (List GoString) :=
  header :: competitors.map row

/-- A `csv.Writer` over a `bytes.Buffer`: the records written so far, in order. -/
structure CsvWriter where
  records : List (List GoString)
deriving DecidableEq

/-- Go `wr.Write(record)`; on a `bytes.Buffer` with the default comma it returns
no error. -/
def CsvWriter.Write (wr : CsvWriter) (record : List GoString) : CsvWriter :=
  { records := wr.records ++ [record] }

/-- The bytes of the buffer after `wr.Flush()`. -/
def CsvWriter.Bytes (enc : List GoString → GoString) (wr : CsvWriter) : GoString :=
  (wr.records.map enc).flatten

/-- An incoming `*http.Request`: what `ioutil.ReadAll(r.Body)` returns (the bytes
read, and whether it returned an error) and `r.Form` after `r.ParseForm()`. -/
structure Request where
  Body : GoString
  BodyErr : Bool
  Form : Values
deriving DecidableEq

/-- What a handler did: the response writer at its end, the remote fetches it
called (in order), the records it gave to the CSV writer, and whether it ended
in a panic. -/
structure Handled where
  w : ResponseWriter
  calls : List Call
  records : List (List GoString)
  panicked : Bool
deriving DecidableEq

/-! ## `main.go` -/

/-- The Go function `validateArgs` validates the arguments passed to routes to
ensure they are populated. -/
def validateArgs (matchid username password : GoString) : Bool :=
  if matchid == [] || username == [] || password == [] then false
  else true

/-- Text written by `getMatchInfo` when the request body cannot be read. -/
def msgKindly : GoString :=
  str "Kindly enter data with the matchid, username and password"

/-- Body of the 400 response of both handlers. -/
def msgBadRequest : GoString :=
  str "\x7b\"response\": \"You need to supply your Match ID, and your Shoot 'n Score It username and password\" \x7d"

/-- Body of the 401 response of `getMatchInfo`. -/
def msgUnauthorized : GoString :=
  str "\x7b\"response\": \"Failed to login to Shoot 'n Score It - please check your username and password.\" \x7d"

/-- Body of the 404 response of `getMatchInfo`; `%v` is the match id. -/
def msgNotFound (matchID : GoString) : GoString :=
  str "\x7b\"response\": \"Couldn't find a match with ID " ++ matchID ++
    str " - please check your match ID before trying again\" \x7d"

/-- Body of the success response of `getMatchInfo`; the two `%v` are the match
name and the file name. -/
def msgDownloading (matchName matchFileName : GoString) : GoString :=
  str "\x7b\"response\": \"Downloading registration for " ++ matchName ++
    str " - this will save a file to your normal download folder named '" ++
    matchFileName ++ str "'\" \x7d"

/-- Lines 87 to 90 of `getMatchInfo`: the file name is derived from
`match.MatchName` (a nil `match` panics) and the success message is written. -/
def matchInfoReply (w : ResponseWriter) (calls : List Call)
    (mt : Option MatchStruct) : Handled :=
  match mt with
  | none => { w := w, calls := calls, records := [], panicked := true }
  | some m =>
    let matchFileName := ReplaceAll (m.MatchName ++ str ".csv") (str " ") (str "_")
    let w1 := w.SetHeader (str "Content-Type") (str "application/json")
    { w := w1.Write (msgDownloading m.MatchName matchFileName),
      calls := calls, records := [], panicked := false }

/-- The handler `getMatchInfo` gets information about a match. -/
def getMatchInfo {L S C : Type} (deps : Deps L S C) (liveMode : Bool)
    (w : ResponseWriter) (r : Request) : Handled :=
  let w0 := if r.BodyErr then w.Write msgKindly else w
  let snsInfo := (deps.Unmarshal r.Body).1
  let result := validateArgs snsInfo.MatchID snsInfo.SNSUsername snsInfo.SNSPassword
  if !result then
    let w1 := w0.WriteHeader 400
    let w2 := w1.SetHeader (str "Content-Type") (str "application/json")
    { w := w2.Write msgBadRequest, calls := [], records := [], panicked := false }
  else
    let matchURL := baseURL ++ snsInfo.MatchID ++ str "/"
    let calls := [Call.Match matchURL snsInfo.SNSUsername snsInfo.SNSPassword liveMode]
    match deps.Match matchURL snsInfo.SNSUsername snsInfo.SNSPassword liveMode with
    | (mt, none) => matchInfoReply w0 calls mt
    | (_, some GoError.other) =>
      -- the type assertion `myerr.(*requests.HTTPError)` fails
      { w := w0, calls := calls, records := [], panicked := true }
    | (mt, some (GoError.HTTPError StatusCode)) =>
      if StatusCode = 401 then
        let w1 := w0.WriteHeader 401
        let w2 := w1.SetHeader (str "Content-Type") (str "application/json")
        { w := w2.Write msgUnauthorized, calls := calls, records := [], panicked := false }
      else if StatusCode = 404 then
        let w1 := w0.WriteHeader 404
        let w2 := w1.SetHeader (str "Content-Type") (str "application/json")
        { w := w2.Write (msgNotFound snsInfo.MatchID), calls := calls, records := [],
          panicked := false }
      else matchInfoReply w0 calls mt

/-- The loop `for line := range csvContent { wr.Write(csvContent[line]) }` on a
new writer. -/
def writeRows (csvContent : List (List GoString)) : CsvWriter :=
  (List.range csvContent.length).foldl
    (fun wr line => wr.Write (csvContent.getD line [])) { records := [] }

/-- The handler `getRegistration` gets match information including squad and
competitor details, then creates a CSV file and returns it to the requestor.
The errors of the three fetches are discarded; `*match`, `*squads` and
`*competitors` panic on nil. -/
def getRegistration {L S C : Type} (deps : Deps L S C) (liveMode : Bool)
    (w : ResponseWriter) (r : Request) : Handled :=
  let snsInfo : snsinfo :=
    { MatchID := valuesGet r.Form (str "matchid"),
      SNSUsername := valuesGet r.Form (str "username"),
      SNSPassword := valuesGet r.Form (str "password") }
  let result := validateArgs snsInfo.MatchID snsInfo.SNSUsername snsInfo.SNSPassword
  if !result then
    let w1 := w.WriteHeader 400
    let w2 := w1.SetHeader (str "Content-Type") (str "application/json")
    { w := w2.Write msgBadRequest, calls := [], records := [], panicked := false }
  else
    let matchURL := baseURL ++ snsInfo.MatchID ++ str "/"
    let squadsURL := baseURL ++ snsInfo.MatchID ++ str "/squads/"
    let competitorsURL := baseURL ++ snsInfo.MatchID ++ str "/competitors/"
    let categories := deps.Categories
    let divisions := deps.Divisions
    let regions := deps.Regions
    let mt := (deps.Match matchURL snsInfo.SNSUsername snsInfo.SNSPassword liveMode).1
    let squads := (deps.Squads squadsURL snsInfo.SNSUsername snsInfo.SNSPassword liveMode).1
    let calls2 := [Call.Match matchURL snsInfo.SNSUsername snsInfo.SNSPassword liveMode,
      Call.Squads squadsURL snsInfo.SNSUsername snsInfo.SNSPassword liveMode]
    match mt, squads with
    | some m, some s =>
      let calls3 := calls2 ++
        [Call.Competitors competitorsURL snsInfo.SNSUsername snsInfo.SNSPassword liveMode]
      match (deps.Competitors competitorsURL categories divisions m regions s
          snsInfo.SNSUsername snsInfo.SNSPassword liveMode).1 with
      | none => { w := w, calls := calls3, records := [], panicked := true }
      | some competitors =>
        let csvContent := CSVContent deps.header deps.row competitors
        let csvFileName := ReplaceAll (m.MatchName ++ str ".csv") (str " ") (str "_")
        let wr := writeRows csvContent
        let w1 := w.SetHeader (str "Content-Disposition")
          (str "attachment; filename=" ++ csvFileName)
        let w2 := w1.SetHeader (str "Content-Type") (str "text/csv")
        { w := w2.Write (wr.Bytes deps.csvEncode), calls := calls3,
          records := wr.records, panicked := false }
    | _, _ => { w := w, calls := calls2, records := [], panicked := true }

/-- The handler `healthCheck` returns a 200 and OK if the app is running. -/
def healthCheck (w : ResponseWriter) : Handled :=
  let w1 := w.SetHeader (str "Content-Type") (str "application/json")
  let w2 := w1.WriteHeader 200
  { w := w2.Write (str "OK"), calls := [], records := [], panicked := false }

/-- The Go function `getHTTPPort` gets the http port from an environment
variable, or the default 8080 if the PORT variable is not set. -/
def getHTTPPort (env : Environ) : GoString :=
  let port := Getenv env (str "PORT")
  let port := if port == [] then str "8080" else port
  str ":" ++ port

/-- The Go function `getLiveMode`: `len(os.Getenv(key)) == 0`. -/
def getLiveMode (env : Environ) (key : GoString) : Bool :=
  let value := Getenv env key
  value.length == 0

/-- The package variable `liveMode`, initialised once when the process starts. -/
def liveMode (env : Environ) : Bool := getLiveMode env (str "LIVE_MODE")

/-- The three routes registered in `main`. -/
inductive Route where
  | healthCheck
  | getMatchInfo
  | getRegistration
deriving DecidableEq

/-- A request after routing: the route it matched, the header fields already
set on its response, and the request. -/
structure Incoming where
  route : Route
  header : Header
  request : Request

/-- The handler of a route, run on a new response writer. -/
def serve {L S C : Type} (deps : Deps L S C) (flag : Bool) (x : Incoming) : Handled :=
  match x.route with
  | .healthCheck => healthCheck (newResponseWriter x.header)
  | .getMatchInfo => getMatchInfo deps flag (newResponseWriter x.header) x.request
  | .getRegistration => getRegistration deps flag (newResponseWriter x.header) x.request

/-- What the process did: the lines `main` logged before serving, and the
outcome of every request served. -/
structure Run where
  log : List GoString
  handled : List Handled

/-- The Go function `main`: reports the mode and the port, then serves the
requests; every handler reads the same package variable `liveMode`. -/
def main {L S C : Type} (env : Environ) (deps : Deps L S C) (reqs : List Incoming) : Run :=
  let httpPort := getHTTPPort env
  let line1 :=
    if liveMode env then str "[main] Running in dummy mode - will use local dummy data"
    else str "[main] Running in live mode - will query Shoot 'n Score It website"
  { log := [line1, str "[main] Starting up using port " ++ httpPort],
    handled := reqs.map (serve deps (liveMode env)) }

/-- The three form fields read by `getRegistration`. -/
def formInfo (r : Request) : snsinfo :=
  { MatchID := valuesGet r.Form (str "matchid"),
    SNSUsername := valuesGet r.Form (str "username"),
    SNSPassword := valuesGet r.Form (str "password") }

/-! ## Fixtures for concrete evaluation -/

/-- A CSV encoding for the fixtures: fields separated by commas, then a newline. -/
def plainEncode (record : List GoString) : GoString :=
  (record.intersperse (str ",")).flatten ++ str "\n"

/-- Dependencies that decode every body to `info` (with error flag `bad`) and
answer the three fetches with fixed results. -/
def fixture (info : snsinfo) (bad : Bool) (mt : Option MatchStruct × Option GoError)
    (sq : Option Unit × Option GoError) (co : Option (List GoString) × Option GoError) :
    Deps Unit Unit GoString :=
  { Unmarshal := fun _ => (info, bad),
    Categories := (), Divisions := (), Regions := (),
    Match := fun _ _ _ _ => mt,
    Squads := fun _ _ _ _ => sq,
    Competitors := fun _ _ _ _ _ _ _ _ _ => co,
    header := [str "Name", str "Squad"],
    row := fun name => [name, str "1"],
    csvEncode := plainEncode }

/-- The arguments of a well-formed request. -/
def goodInfo : snsinfo :=
  { MatchID := str "12345", SNSUsername := str "user", SNSPassword := str "secret" }

/-- The form of a well-formed registration request. -/
def goodForm : Values :=
  [(str "matchid", [str "12345"]), (str "username", [str "user"]),
   (str "password", [str "secret"])]

/-- The JSON body of a well-formed match-info request. -/
def jsonBody : GoString :=
  str "\x7b\"matchid\": \"12345\", \"snsusername\": \"user\", \"snspassword\": \"secret\"\x7d"

/-- A match-info request whose body is read in full. -/
def matchInfoRequest : Request := { Body := jsonBody, BodyErr := false, Form := [] }

/-- A match-info request whose body arrives in full, after which the read fails
(the announced length is not reached). -/
def brokenReadRequest : Request := { Body := jsonBody, BodyErr := true, Form := [] }

/-- A match-info request of which nothing can be read. -/
def unreadableRequest : Request := { Body := [], BodyErr := true, Form := [] }

/-- A well-formed registration request. -/
def registrationRequest : Request := { Body := [], BodyErr := false, Form := goodForm }

/-- The match of the fixtures. -/
def springClassic : MatchStruct := { MatchName := str "Spring Classic" }

/-- Dependencies whose fetches all succeed. -/
def okDeps : Deps Unit Unit GoString :=
  fixture goodInfo false (some springClassic, none) (some (), none)
    (some [str "Ann", str "Bob"], none)

/-- Dependencies for a request without arguments: the body does not decode. -/
def emptyDeps : Deps Unit Unit GoString :=
  fixture { MatchID := [], SNSUsername := [], SNSPassword := [] } true
    (none, none) (none, none) (none, none)

/-- Dependencies whose match fetch fails with the given error and returns no
match; the other two fetches succeed. -/
def failDeps (e : GoError) : Deps Unit Unit GoString :=
  fixture goodInfo false (none, some e) (some (), none) (some [str "Ann", str "Bob"], none)

/-- Dependencies whose match fetch returns a match together with an error of
status 500; the other two fetches succeed. -/
def staleDeps : Deps Unit Unit GoString :=
  fixture goodInfo false (some springClassic, some (GoError.HTTPError 500)) (some (), none)
    (some [str "Ann", str "Bob"], none)

/-! ## Auxiliary facts -/



theorem str_space : str " " = [0x20] := by decide

theorem str_underscore : str "_" = [0x5f] := by decide

theorem str_csv : str ".csv" = [0x2e, 0x63, 0x73, 0x76] := by decide

/-- Replacing a one-byte pattern by one byte is a byte-wise map. -/
theorem ReplaceAll_byte (a b : UInt8) (s : GoString) :
    ReplaceAll s [a] [b] = s.map (fun c => if c = a then b else c) := by
  unfold ReplaceAll
  induction s with
  | nil => simp [ReplaceAllAux]
  | cons c cs ih =>
    by_cases h : c = a
    · simp [ReplaceAllAux, List.isPrefixOf, h, ih]
    · have h2 : ¬ a = c := fun e => h e.symm
      simp [ReplaceAllAux, List.isPrefixOf, h, h2, ih]

/-- The write loop hands the rows to the writer one by one, in order. -/
theorem writeRows_take (l : List (List GoString)) (n : Nat) (hn : n ≤ l.length) :
    (List.range n).foldl (fun (wr : CsvWriter) line => wr.Write (l.getD line []))
      { records := [] } = { records := l.take n } := by
  induction n with
  | zero => simp
  | succ k ih =>
    have hk : k < l.length := hn
    rw [List.range_succ, List.foldl_append, ih (Nat.le_of_lt hk)]
    have e : l.take k ++ [l.getD k []] = l.take (k + 1) := by
      rw [List.take_succ, List.getD_eq_getElem?_getD, List.getElem?_eq_getElem hk]
      rfl
    simp only [CsvWriter.Write, List.foldl_cons, List.foldl_nil, e]

theorem writeRows_records (l : List (List GoString)) : (writeRows l).records = l := by
  unfold writeRows
  rw [writeRows_take l l.length (Nat.le_refl _)]
  simp

theorem getRegistration_sent {L S C : Type} (deps : Deps L S C) (lm : Bool) (h : Header)
    (r : Request) (m : MatchStruct) (s : S) (cs : List C)
    (hv : validateArgs (formInfo r).MatchID (formInfo r).SNSUsername
      (formInfo r).SNSPassword = true)
    (hm : (deps.Match (baseURL ++ (formInfo r).MatchID ++ str "/") (formInfo r).SNSUsername
      (formInfo r).SNSPassword lm).1 = some m)
    (hs : (deps.Squads (baseURL ++ (formInfo r).MatchID ++ str "/squads/")
      (formInfo r).SNSUsername (formInfo r).SNSPassword lm).1 = some s)
    (hc : (deps.Competitors (baseURL ++ (formInfo r).MatchID ++ str "/competitors/")
      deps.Categories deps.Divisions m deps.Regions s (formInfo r).SNSUsername
      (formInfo r).SNSPassword lm).1 = some cs) :
    getRegistration deps lm (newResponseWriter h) r =
      { w := (((newResponseWriter h).SetHeader (str "Content-Disposition")
            (str "attachment; filename=" ++
              ReplaceAll (m.MatchName ++ str ".csv") (str " ") (str "_"))).SetHeader
            (str "Content-Type") (str "text/csv")).Write
            ((CSVContent deps.header deps.row cs).map deps.csvEncode).flatten,
        calls := [Call.Match (baseURL ++ (formInfo r).MatchID ++ str "/")
            (formInfo r).SNSUsername (formInfo r).SNSPassword lm,
          Call.Squads (baseURL ++ (formInfo r).MatchID ++ str "/squads/")
            (formInfo r).SNSUsername (formInfo r).SNSPassword lm,
          Call.Competitors (baseURL ++ (formInfo r).MatchID ++ str "/competitors/")
            (formInfo r).SNSUsername (formInfo r).SNSPassword lm],
        records := CSVContent deps.header deps.row cs,
        panicked := false } := by
  simp only [formInfo, List.append_assoc] at hv hm hs hc
  simp [getRegistration, formInfo, hv, hm, hs, hc, writeRows_records, CsvWriter.Bytes]

theorem validateArgs_eq_true (m u p : GoString) :
    validateArgs m u p = true ↔ m ≠ [] ∧ u ≠ [] ∧ p ≠ [] := by
  simp [validateArgs, and_assoc]

theorem header_sent_disposition (h : Header) (v w : GoString) :
    headerGet (headerSet (headerSet h (str "Content-Disposition") v) (str "Content-Type") w)
      (str "Content-Disposition") = v := by
  have e1 : (str "Content-Type" == str "Content-Disposition") = false := by decide
  have e2 : (str "Content-Disposition" != str "Content-Type") = true := by decide
  simp [headerGet, headerSet, List.find?, List.filter, e1, e2]

/-- Every fetch called by a handler carries the flag the handler was given. -/
theorem serve_calls_flag {L S C : Type} (deps : Deps L S C) (flag : Bool) (x : Incoming) :
    ∀ c ∈ (serve deps flag x).calls, c.useLocal = flag := by
  intro c hc
  unfold serve at hc
  split at hc
  · simp [healthCheck] at hc
  · unfold getMatchInfo at hc
    simp only at hc
    split at hc
    · simp at hc
    · split at hc
      · unfold matchInfoReply at hc
        split at hc <;> simp at hc <;> simp [hc, Call.useLocal]
      · simp at hc
        simp [hc, Call.useLocal]
      · split at hc
        · simp at hc
          simp [hc, Call.useLocal]
        · split at hc
          · simp at hc
            simp [hc, Call.useLocal]
          · unfold matchInfoReply at hc
            split at hc <;> simp at hc <;> simp [hc, Call.useLocal]
  · unfold getRegistration at hc
    simp only at hc
    split at hc
    · simp at hc
    · split at hc
      · split at hc <;> simp at hc <;> rcases hc with hc | hc | hc <;> simp [hc, Call.useLocal]
      · simp at hc
        rcases hc with hc | hc <;> simp [hc, Call.useLocal]

theorem matchID_in_msgNotFound (matchID : GoString) : matchID <:+: msgNotFound matchID :=
  ⟨_, _, rfl⟩

/-- On a request whose body was read without error, `getMatchInfo` answers missing
arguments with status 400 and the "You need to supply" message, without a fetch. -/
theorem getMatchInfo_badRequest {L S C : Type} (deps : Deps L S C) (lm : Bool) (h : Header)
    (r : Request) (hb : r.BodyErr = false)
    (hv : validateArgs (deps.Unmarshal r.Body).1.MatchID (deps.Unmarshal r.Body).1.SNSUsername
      (deps.Unmarshal r.Body).1.SNSPassword = false) :
    (getMatchInfo deps lm (newResponseWriter h) r).w.status = 400 ∧
    (getMatchInfo deps lm (newResponseWriter h) r).w.body = msgBadRequest ∧
    (getMatchInfo deps lm (newResponseWriter h) r).calls = [] ∧
    (getMatchInfo deps lm (newResponseWriter h) r).panicked = false := by
  simp [getMatchInfo, hb, hv, newResponseWriter, ResponseWriter.WriteHeader,
    ResponseWriter.SetHeader, ResponseWriter.Write]

/-- The handler `getRegistration` answers missing arguments with status 400 and
the "You need to supply" message, without a fetch. -/
theorem getRegistration_badRequest {L S C : Type} (deps : Deps L S C) (lm : Bool)
    (h : Header) (r : Request)
    (hv : validateArgs (formInfo r).MatchID (formInfo r).SNSUsername
      (formInfo r).SNSPassword = false) :
    (getRegistration deps lm (newResponseWriter h) r).w.status = 400 ∧
    (getRegistration deps lm (newResponseWriter h) r).w.body = msgBadRequest ∧
    (getRegistration deps lm (newResponseWriter h) r).calls = [] ∧
    (getRegistration deps lm (newResponseWriter h) r).panicked = false := by
  simp only [formInfo] at hv
  simp [getRegistration, hv, newResponseWriter, ResponseWriter.WriteHeader,
    ResponseWriter.SetHeader, ResponseWriter.Write]

/-- On a request whose body was read without error and whose arguments are
populated, a 404 of the match fetch is answered with status 404 and a message
that quotes the match id. -/
theorem getMatchInfo_notFound {L S C : Type} (deps : Deps L S C) (lm : Bool) (h : Header)
    (r : Request) (hb : r.BodyErr = false)
    (hv : validateArgs (deps.Unmarshal r.Body).1.MatchID (deps.Unmarshal r.Body).1.SNSUsername
      (deps.Unmarshal r.Body).1.SNSPassword = true)
    (he : (deps.Match (baseURL ++ (deps.Unmarshal r.Body).1.MatchID ++ str "/")
      (deps.Unmarshal r.Body).1.SNSUsername (deps.Unmarshal r.Body).1.SNSPassword lm).2
        = some (GoError.HTTPError 404)) :
    (getMatchInfo deps lm (newResponseWriter h) r).w.status = 404 ∧
    (getMatchInfo deps lm (newResponseWriter h) r).w.body
      = msgNotFound (deps.Unmarshal r.Body).1.MatchID ∧
    (deps.Unmarshal r.Body).1.MatchID <:+:
      (getMatchInfo deps lm (newResponseWriter h) r).w.body := by
  have key : getMatchInfo deps lm (newResponseWriter h) r =
      { w := (((newResponseWriter h).WriteHeader 404).SetHeader (str "Content-Type")
          (str "application/json")).Write (msgNotFound (deps.Unmarshal r.Body).1.MatchID),
        calls := [Call.Match (baseURL ++ (deps.Unmarshal r.Body).1.MatchID ++ str "/")
          (deps.Unmarshal r.Body).1.SNSUsername (deps.Unmarshal r.Body).1.SNSPassword lm],
        records := [], panicked := false } := by
    rcases hM : deps.Match (baseURL ++ (deps.Unmarshal r.Body).1.MatchID ++ str "/")
      (deps.Unmarshal r.Body).1.SNSUsername (deps.Unmarshal r.Body).1.SNSPassword lm
      with ⟨mt, err⟩
    rw [hM] at he
    simp only at he
    subst he
    simp only [List.append_assoc] at hM
    simp [getMatchInfo, hb, hv, hM]
  rw [key]
  have hbody : ((((newResponseWriter h).WriteHeader 404).SetHeader (str "Content-Type")
      (str "application/json")).Write (msgNotFound (deps.Unmarshal r.Body).1.MatchID)).body
      = msgNotFound (deps.Unmarshal r.Body).1.MatchID := by
    simp [newResponseWriter, ResponseWriter.WriteHeader, ResponseWriter.SetHeader,
      ResponseWriter.Write]
  refine ⟨by simp [newResponseWriter, ResponseWriter.WriteHeader, ResponseWriter.SetHeader,
    ResponseWriter.Write], hbody, ?_⟩
  simp only [hbody]
  exact matchID_in_msgNotFound _

/-- On a request whose body was read without error and whose arguments are
populated, a 401 of the match fetch is answered with status 401 and the
"Failed to login" message. -/
theorem getMatchInfo_unauthorized {L S C : Type} (deps : Deps L S C) (lm : Bool)
    (h : Header) (r : Request) (hb : r.BodyErr = false)
    (hv : validateArgs (deps.Unmarshal r.Body).1.MatchID (deps.Unmarshal r.Body).1.SNSUsername
      (deps.Unmarshal r.Body).1.SNSPassword = true)
    (he : (deps.Match (baseURL ++ (deps.Unmarshal r.Body).1.MatchID ++ str "/")
      (deps.Unmarshal r.Body).1.SNSUsername (deps.Unmarshal r.Body).1.SNSPassword lm).2
        = some (GoError.HTTPError 401)) :
    (getMatchInfo deps lm (newResponseWriter h) r).w.status = 401 ∧
    (getMatchInfo deps lm (newResponseWriter h) r).w.body = msgUnauthorized := by
  have key : getMatchInfo deps lm (newResponseWriter h) r =
      { w := (((newResponseWriter h).WriteHeader 401).SetHeader (str "Content-Type")
          (str "application/json")).Write msgUnauthorized,
        calls := [Call.Match (baseURL ++ (deps.Unmarshal r.Body).1.MatchID ++ str "/")
          (deps.Unmarshal r.Body).1.SNSUsername (deps.Unmarshal r.Body).1.SNSPassword lm],
        records := [], panicked := false } := by
    rcases hM : deps.Match (baseURL ++ (deps.Unmarshal r.Body).1.MatchID ++ str "/")
      (deps.Unmarshal r.Body).1.SNSUsername (deps.Unmarshal r.Body).1.SNSPassword lm
      with ⟨mt, err⟩
    rw [hM] at he
    simp only at he
    subst he
    simp only [List.append_assoc] at hM
    simp [getMatchInfo, hb, hv, hM]
  rw [key]
  simp [newResponseWriter, ResponseWriter.WriteHeader, ResponseWriter.SetHeader,
    ResponseWriter.Write]

/-- The 401 body differs from every 404 body and from every success body: they
part at the first letter after the opening of the response text. -/
theorem msgUnauthorized_distinct (matchID name file : GoString) :
    msgUnauthorized ≠ msgNotFound matchID ∧ msgUnauthorized ≠ msgDownloading name file := by
  constructor
  · intro e
    have e2 : msgUnauthorized[14]? = (msgNotFound matchID)[14]? := by rw [e]
    have hl : 14 < (str "\x7b\"response\": \"Couldn't find a match with ID ").length := by
      decide
    rw [msgNotFound, List.append_assoc, List.getElem?_append_left hl] at e2
    revert e2
    decide
  · intro e
    have e2 : msgUnauthorized[14]? = (msgDownloading name file)[14]? := by rw [e]
    have hl : 14 < (str "\x7b\"response\": \"Downloading registration for ").length := by
      decide
    rw [msgDownloading, List.append_assoc, List.append_assoc, List.append_assoc,
      List.getElem?_append_left hl] at e2
    revert e2
    decide

/-- With populated arguments, a failure of the match fetch that is neither a 401
nor a 404 ends `getMatchInfo` in a panic or in the success message: no error
response exists for it. -/
theorem getMatchInfo_other_error {L S C : Type} (deps : Deps L S C) (lm : Bool)
    (h : Header) (r : Request) (e : GoError)
    (hv : validateArgs (deps.Unmarshal r.Body).1.MatchID (deps.Unmarshal r.Body).1.SNSUsername
      (deps.Unmarshal r.Body).1.SNSPassword = true)
    (he : (deps.Match (baseURL ++ (deps.Unmarshal r.Body).1.MatchID ++ str "/")
      (deps.Unmarshal r.Body).1.SNSUsername (deps.Unmarshal r.Body).1.SNSPassword lm).2
        = some e)
    (h401 : e ≠ GoError.HTTPError 401) (h404 : e ≠ GoError.HTTPError 404) :
    (getMatchInfo deps lm (newResponseWriter h) r).panicked = true ∨
    ∃ m : MatchStruct,
      msgDownloading m.MatchName (ReplaceAll (m.MatchName ++ str ".csv") (str " ") (str "_"))
        <:+ (getMatchInfo deps lm (newResponseWriter h) r).w.body := by
  rcases hM : deps.Match (baseURL ++ (deps.Unmarshal r.Body).1.MatchID ++ str "/")
    (deps.Unmarshal r.Body).1.SNSUsername (deps.Unmarshal r.Body).1.SNSPassword lm
    with ⟨mt, err⟩
  rw [hM] at he
  simp only at he
  subst he
  simp only [List.append_assoc] at hM
  cases e with
  | other => left; simp [getMatchInfo, hv, hM]
  | HTTPError code =>
    have c1 : code ≠ 401 := fun c => h401 (by rw [c])
    have c2 : code ≠ 404 := fun c => h404 (by rw [c])
    cases mt with
    | none => left; simp [getMatchInfo, hv, hM, c1, c2, matchInfoReply]
    | some m =>
      right
      refine ⟨m, ?_⟩
      cases hb : r.BodyErr
      · simp [getMatchInfo, hv, hM, hb, c1, c2, matchInfoReply, newResponseWriter,
          ResponseWriter.WriteHeader, ResponseWriter.SetHeader, ResponseWriter.Write]
      · simp [getMatchInfo, hv, hM, hb, c1, c2, matchInfoReply, newResponseWriter,
          ResponseWriter.WriteHeader, ResponseWriter.SetHeader, ResponseWriter.Write]

/-- With populated arguments `getRegistration` never writes an error status:
whatever the three fetches return, it panics or sends a response of status 200. -/
theorem getRegistration_no_error_response {L S C : Type} (deps : Deps L S C) (lm : Bool)
    (h : Header) (r : Request)
    (hv : validateArgs (formInfo r).MatchID (formInfo r).SNSUsername
      (formInfo r).SNSPassword = true) :
    (getRegistration deps lm (newResponseWriter h) r).panicked = true ∨
    (getRegistration deps lm (newResponseWriter h) r).w.status = 200 := by
  simp only [formInfo] at hv
  unfold getRegistration
  simp only [hv]
  split
  · rename_i c; simp at c
  · split
    · split
      · left; rfl
      · right
        simp [newResponseWriter, ResponseWriter.WriteHeader, ResponseWriter.SetHeader,
          ResponseWriter.Write]
    · left; rfl

/-! ## The claims -/

set_option maxRecDepth 100000

/-- C10: `validateArgs` returns true if and only if the match id, the username
and the password are all non-empty; nothing else about their content is checked,
so every triple of non-empty strings is accepted. -/
theorem validateArgs_populated :
    (∀ matchid username password : GoString,
      validateArgs matchid username password = true ↔
        matchid ≠ [] ∧ username ≠ [] ∧ password ≠ []) ∧
    (∀ matchid username password : GoString,
      matchid ≠ [] → username ≠ [] → password ≠ [] →
        validateArgs matchid username password = true) := by
  refine ⟨validateArgs_eq_true, ?_⟩
  intro m u p hm hu hp
  exact (validateArgs_eq_true m u p).2 ⟨hm, hu, hp⟩

/-- Witness of C10: a triple of non-empty strings is accepted. -/
theorem validateArgs_populated_witness :
    validateArgs (str "12345") (str "user") (str "secret") = true :=
  validateArgs_populated.2 (str "12345") (str "user") (str "secret")
    (by decide) (by decide) (by decide)

/-- C9 (the code differs): `getLiveMode` returns true exactly when the variable
is unset or empty, the opposite of its doc comment; with `LIVE_MODE` unset it
returns true, with `LIVE_MODE=1` it returns false. -/
theorem getLiveMode_true_iff_unset :
    (∀ (env : Environ) (key : GoString), getLiveMode env key = true ↔ Getenv env key = []) ∧
    getLiveMode [] (str "LIVE_MODE") = true ∧
    getLiveMode [(str "LIVE_MODE", str "1")] (str "LIVE_MODE") = false := by
  refine ⟨?_, by decide, by decide⟩
  intro env key
  simp [getLiveMode]

/-- C8: the mode is computed once from `LIVE_MODE` and is dummy by default.  When
the variable is unset or empty, `main` reports dummy mode and every fetch of
every request is called with the flag true (use local data); when it is set to
a non-empty value, `main` reports live mode and every fetch is called with the
flag false; all requests are served with the one value `liveMode env`. -/
theorem liveMode_default_dummy {L S C : Type} (env : Environ) (deps : Deps L S C)
    (reqs : List Incoming) :
    (Getenv env (str "LIVE_MODE") = [] →
      (main env deps reqs).log.head? =
        some (str "[main] Running in dummy mode - will use local dummy data") ∧
      ∀ out ∈ (main env deps reqs).handled, ∀ c ∈ out.calls, c.useLocal = true) ∧
    (Getenv env (str "LIVE_MODE") ≠ [] →
      (main env deps reqs).log.head? =
        some (str "[main] Running in live mode - will query Shoot 'n Score It website") ∧
      ∀ out ∈ (main env deps reqs).handled, ∀ c ∈ out.calls, c.useLocal = false) ∧
    (main env deps reqs).handled = reqs.map (serve deps (liveMode env)) := by
  refine ⟨?_, ?_, rfl⟩
  · intro he
    have hl : liveMode env = true := by simp [liveMode, getLiveMode, he]
    refine ⟨by simp [main, hl], ?_⟩
    intro out hout c hc
    simp only [main, List.mem_map] at hout
    obtain ⟨x, _, rfl⟩ := hout
    rw [serve_calls_flag deps (liveMode env) x c hc, hl]
  · intro he
    have hl : liveMode env = false := by simp [liveMode, getLiveMode, he]
    refine ⟨by simp [main, hl], ?_⟩
    intro out hout c hc
    simp only [main, List.mem_map] at hout
    obtain ⟨x, _, rfl⟩ := hout
    rw [serve_calls_flag deps (liveMode env) x c hc, hl]

/-- Witness of C8: with an empty environment a match-info and a registration
request are both served with the flag true and dummy mode is reported. -/
theorem liveMode_default_dummy_witness :
    Getenv [] (str "LIVE_MODE") = [] ∧
    ((main [] okDeps [⟨Route.getMatchInfo, [], matchInfoRequest⟩,
        ⟨Route.getRegistration, [], registrationRequest⟩]).log.head? =
        some (str "[main] Running in dummy mode - will use local dummy data") ∧
      ∀ out ∈ (main [] okDeps [⟨Route.getMatchInfo, [], matchInfoRequest⟩,
        ⟨Route.getRegistration, [], registrationRequest⟩]).handled,
        ∀ c ∈ out.calls, c.useLocal = true) :=
  ⟨by decide, (liveMode_default_dummy [] okDeps _).1 (by decide)⟩

/-- C7: when the competitor fetch of `getRegistration` returns a collection, the
records given to the CSV writer are exactly the rows of `CSVContent`, in the same
order, each once; there are (number of competitors + 1) of them, and the body
sent is their encoding, record after record. -/
theorem getRegistration_rows {L S C : Type} (deps : Deps L S C) (lm : Bool) (h : Header)
    (r : Request) (m : MatchStruct) (s : S) (cs : List C)
    (hv : validateArgs (formInfo r).MatchID (formInfo r).SNSUsername
      (formInfo r).SNSPassword = true)
    (hm : (deps.Match (baseURL ++ (formInfo r).MatchID ++ str "/") (formInfo r).SNSUsername
      (formInfo r).SNSPassword lm).1 = some m)
    (hs : (deps.Squads (baseURL ++ (formInfo r).MatchID ++ str "/squads/")
      (formInfo r).SNSUsername (formInfo r).SNSPassword lm).1 = some s)
    (hc : (deps.Competitors (baseURL ++ (formInfo r).MatchID ++ str "/competitors/")
      deps.Categories deps.Divisions m deps.Regions s (formInfo r).SNSUsername
      (formInfo r).SNSPassword lm).1 = some cs) :
    (getRegistration deps lm (newResponseWriter h) r).records
      = CSVContent deps.header deps.row cs ∧
    (getRegistration deps lm (newResponseWriter h) r).records.length = cs.length + 1 ∧
    (getRegistration deps lm (newResponseWriter h) r).w.body
      = ((getRegistration deps lm (newResponseWriter h) r).records.map deps.csvEncode).flatten ∧
    (getRegistration deps lm (newResponseWriter h) r).panicked = false := by
  rw [getRegistration_sent deps lm h r m s cs hv hm hs hc]
  refine ⟨rfl, by simp [CSVContent], ?_, rfl⟩
  simp [newResponseWriter, ResponseWriter.WriteHeader, ResponseWriter.SetHeader,
    ResponseWriter.Write]

/-- Witness of C7: two competitors give three records. -/
theorem getRegistration_rows_witness :
    (getRegistration okDeps true (newResponseWriter []) registrationRequest).records
      = CSVContent okDeps.header okDeps.row [str "Ann", str "Bob"] ∧
    (getRegistration okDeps true (newResponseWriter []) registrationRequest).records.length
      = 2 + 1 :=
  have w := getRegistration_rows okDeps true [] registrationRequest springClassic ()
    [str "Ann", str "Bob"] (by decide) (by decide) (by decide) (by decide)
  ⟨w.1, w.2.1⟩

/-- C6: the file name derived from a match name `n` is `n` followed by ".csv" with
every space replaced by an underscore: it holds no space, ends in ".csv" and has
length `len(n) + 4`; for "Spring Classic" it is "Spring_Classic.csv".  It is the
name `getRegistration` sends in `Content-Disposition` and the name `getMatchInfo`
quotes in its success message. -/
theorem csvFileName_spec (n : GoString) :
    ReplaceAll (n ++ str ".csv") (str " ") (str "_")
      = (n ++ str ".csv").map (fun c => if c = 0x20 then 0x5f else c) ∧
    (0x20 : UInt8) ∉ ReplaceAll (n ++ str ".csv") (str " ") (str "_") ∧
    str ".csv" <:+ ReplaceAll (n ++ str ".csv") (str " ") (str "_") ∧
    (ReplaceAll (n ++ str ".csv") (str " ") (str "_")).length = n.length + 4 ∧
    ReplaceAll (str "Spring Classic" ++ str ".csv") (str " ") (str "_")
      = str "Spring_Classic.csv" ∧
    (∀ {L S C : Type} (deps : Deps L S C) (lm : Bool) (h : Header) (r : Request),
      validateArgs (formInfo r).MatchID (formInfo r).SNSUsername
        (formInfo r).SNSPassword = true →
      (deps.Match (baseURL ++ (formInfo r).MatchID ++ str "/") (formInfo r).SNSUsername
        (formInfo r).SNSPassword lm).1 = some { MatchName := n } →
      (getRegistration deps lm (newResponseWriter h) r).panicked = false →
      headerGet (getRegistration deps lm (newResponseWriter h) r).w.sent
          (str "Content-Disposition")
        = str "attachment; filename=" ++ ReplaceAll (n ++ str ".csv") (str " ") (str "_")) ∧
    (∀ {L S C : Type} (deps : Deps L S C) (lm : Bool) (h : Header) (r : Request),
      validateArgs (deps.Unmarshal r.Body).1.MatchID (deps.Unmarshal r.Body).1.SNSUsername
        (deps.Unmarshal r.Body).1.SNSPassword = true →
      deps.Match (baseURL ++ (deps.Unmarshal r.Body).1.MatchID ++ str "/")
        (deps.Unmarshal r.Body).1.SNSUsername (deps.Unmarshal r.Body).1.SNSPassword lm
        = (some { MatchName := n }, none) →
      msgDownloading n (ReplaceAll (n ++ str ".csv") (str " ") (str "_"))
        <:+ (getMatchInfo deps lm (newResponseWriter h) r).w.body) := by
  have hmap : ReplaceAll (n ++ str ".csv") (str " ") (str "_")
      = n.map (fun c => if c = 0x20 then 0x5f else c) ++ str ".csv" := by
    rw [str_space, str_underscore, ReplaceAll_byte, List.map_append]
    congr 1
  refine ⟨?_, ?_, ?_, ?_, by decide, ?_, ?_⟩
  · rw [str_space, str_underscore, ReplaceAll_byte]
  · rw [hmap, str_csv]
    intro hmem
    rcases List.mem_append.1 hmem with h1 | h1
    · obtain ⟨c, _, hc⟩ := List.mem_map.1 h1
      by_cases e : c = 0x20
      · rw [if_pos e] at hc
        exact absurd hc (by decide)
      · rw [if_neg e] at hc
        exact e hc
    · revert h1
      decide
  · rw [hmap]
    exact List.suffix_append _ _
  · rw [hmap, str_csv]
    simp
  · intro L S C deps lm h r hv hm hp
    cases hs : (deps.Squads (baseURL ++ (formInfo r).MatchID ++ str "/squads/")
      (formInfo r).SNSUsername (formInfo r).SNSPassword lm).1 with
    | none =>
      exfalso
      simp only [formInfo, List.append_assoc] at hv hm hs
      simp [getRegistration, hv, hm, hs] at hp
    | some s =>
      cases hc : (deps.Competitors (baseURL ++ (formInfo r).MatchID ++ str "/competitors/")
        deps.Categories deps.Divisions { MatchName := n } deps.Regions s
        (formInfo r).SNSUsername (formInfo r).SNSPassword lm).1 with
      | none =>
        exfalso
        simp only [formInfo, List.append_assoc] at hv hm hs hc
        simp [getRegistration, hv, hm, hs, hc] at hp
      | some cs =>
        rw [getRegistration_sent deps lm h r _ s cs hv hm hs hc]
        simp only [newResponseWriter, ResponseWriter.WriteHeader, ResponseWriter.SetHeader,
          ResponseWriter.Write, Bool.false_eq_true, if_false]
        exact header_sent_disposition _ _ _
  · intro L S C deps lm h r hv hM
    simp only [List.append_assoc] at hM
    cases hb : r.BodyErr
    · simp [getMatchInfo, hv, hM, hb, matchInfoReply, newResponseWriter,
        ResponseWriter.WriteHeader, ResponseWriter.SetHeader, ResponseWriter.Write]
    · simp [getMatchInfo, hv, hM, hb, matchInfoReply, newResponseWriter,
        ResponseWriter.WriteHeader, ResponseWriter.SetHeader, ResponseWriter.Write]

/-- Witness of C6: for the match "Spring Classic" the registration response
names the attachment "Spring_Classic.csv". -/
theorem csvFileName_spec_witness :
    headerGet (getRegistration okDeps true (newResponseWriter []) registrationRequest).w.sent
      (str "Content-Disposition")
      = str "attachment; filename=" ++
        ReplaceAll (str "Spring Classic" ++ str ".csv") (str " ") (str "_") ∧
    msgDownloading (str "Spring Classic")
        (ReplaceAll (str "Spring Classic" ++ str ".csv") (str " ") (str "_"))
      <:+ (getMatchInfo okDeps true (newResponseWriter []) matchInfoRequest).w.body :=
  ⟨(csvFileName_spec (str "Spring Classic")).2.2.2.2.2.1 okDeps true [] registrationRequest
      (by decide) (by decide) (by decide),
   (csvFileName_spec (str "Spring Classic")).2.2.2.2.2.2 okDeps true [] matchInfoRequest
      (by decide) (by decide)⟩

/-- C1 (the code differs): a match-info request whose body cannot be read and
that carries no arguments is answered with status 200, not 400: the text written
on the read error has committed the response before `WriteHeader(400)` is
reached, and the 400 message follows that text in the body.  No fetch is made. -/
theorem getMatchInfo_unreadable_missing_args :
    validateArgs (emptyDeps.Unmarshal unreadableRequest.Body).1.MatchID
      (emptyDeps.Unmarshal unreadableRequest.Body).1.SNSUsername
      (emptyDeps.Unmarshal unreadableRequest.Body).1.SNSPassword = false ∧
    (getMatchInfo emptyDeps true (newResponseWriter []) unreadableRequest).w.status = 200 ∧
    (getMatchInfo emptyDeps true (newResponseWriter []) unreadableRequest).w.body
      = msgKindly ++ msgBadRequest ∧
    (getMatchInfo emptyDeps true (newResponseWriter []) unreadableRequest).calls = [] := by
  decide

/-- C2 (the code differs): a match-info request with populated arguments whose
body read ends in an error, and whose match fetch fails with status 404, is
answered with status 200, not 404; the 404 message, with the match id, follows
the text written on the read error. -/
theorem getMatchInfo_brokenRead_notFound :
    validateArgs ((failDeps (GoError.HTTPError 404)).Unmarshal brokenReadRequest.Body).1.MatchID
      ((failDeps (GoError.HTTPError 404)).Unmarshal brokenReadRequest.Body).1.SNSUsername
      ((failDeps (GoError.HTTPError 404)).Unmarshal brokenReadRequest.Body).1.SNSPassword
      = true ∧
    ((failDeps (GoError.HTTPError 404)).Match (baseURL ++ str "12345" ++ str "/") (str "user")
      (str "secret") true).2 = some (GoError.HTTPError 404) ∧
    (getMatchInfo (failDeps (GoError.HTTPError 404)) true (newResponseWriter [])
      brokenReadRequest).w.status = 200 ∧
    (getMatchInfo (failDeps (GoError.HTTPError 404)) true (newResponseWriter [])
      brokenReadRequest).w.body = msgKindly ++ msgNotFound (str "12345") := by
  decide

/-- C3 (the code differs): a match-info request with populated arguments whose
body read ends in an error, and whose match fetch fails with status 401, is
answered with status 200, not 401; the status is the one of a success response. -/
theorem getMatchInfo_brokenRead_unauthorized :
    validateArgs ((failDeps (GoError.HTTPError 401)).Unmarshal brokenReadRequest.Body).1.MatchID
      ((failDeps (GoError.HTTPError 401)).Unmarshal brokenReadRequest.Body).1.SNSUsername
      ((failDeps (GoError.HTTPError 401)).Unmarshal brokenReadRequest.Body).1.SNSPassword
      = true ∧
    ((failDeps (GoError.HTTPError 401)).Match (baseURL ++ str "12345" ++ str "/") (str "user")
      (str "secret") true).2 = some (GoError.HTTPError 401) ∧
    (getMatchInfo (failDeps (GoError.HTTPError 401)) true (newResponseWriter [])
      brokenReadRequest).w.status = 200 ∧
    (getMatchInfo (failDeps (GoError.HTTPError 401)) true (newResponseWriter [])
      brokenReadRequest).w.body = msgKindly ++ msgUnauthorized ∧
    (getMatchInfo okDeps true (newResponseWriter []) matchInfoRequest).w.status = 200 := by
  decide

/-- C4 (the code differs): with populated arguments, when the match fetch fails
with status 500 and no match, or with an error that is not an HTTP error,
`getMatchInfo` panics before anything is written; when it fails with status 500
and a match, the success message is sent with status 200. -/
theorem getMatchInfo_other_failure :
    validateArgs goodInfo.MatchID goodInfo.SNSUsername goodInfo.SNSPassword = true ∧
    (getMatchInfo (failDeps (GoError.HTTPError 500)) true (newResponseWriter [])
      matchInfoRequest).calls
      = [Call.Match (baseURL ++ str "12345" ++ str "/") (str "user") (str "secret") true] ∧
    (getMatchInfo (failDeps (GoError.HTTPError 500)) true (newResponseWriter [])
      matchInfoRequest).panicked = true ∧
    (getMatchInfo (failDeps (GoError.HTTPError 500)) true (newResponseWriter [])
      matchInfoRequest).w.wroteHeader = false ∧
    (getMatchInfo (failDeps GoError.other) true (newResponseWriter [])
      matchInfoRequest).panicked = true ∧
    (staleDeps.Match (baseURL ++ str "12345" ++ str "/") (str "user") (str "secret") true).2
      = some (GoError.HTTPError 500) ∧
    (getMatchInfo staleDeps true (newResponseWriter []) matchInfoRequest).w.status = 200 ∧
    (getMatchInfo staleDeps true (newResponseWriter []) matchInfoRequest).w.body
      = msgDownloading (str "Spring Classic") (str "Spring_Classic.csv") := by
  decide

/-- C5 (the code differs): with populated arguments, when the match fetch of
`getRegistration` fails with status 404 and no match, the handler panics on
`*match` with nothing written; when it fails with status 500 and a match, the
CSV attachment is sent with status 200 all the same. -/
theorem getRegistration_failed_fetch :
    validateArgs (formInfo registrationRequest).MatchID
      (formInfo registrationRequest).SNSUsername
      (formInfo registrationRequest).SNSPassword = true ∧
    (getRegistration (failDeps (GoError.HTTPError 404)) true (newResponseWriter [])
      registrationRequest).panicked = true ∧
    (getRegistration (failDeps (GoError.HTTPError 404)) true (newResponseWriter [])
      registrationRequest).w.wroteHeader = false ∧
    (staleDeps.Match (baseURL ++ str "12345" ++ str "/") (str "user") (str "secret") true).2
      = some (GoError.HTTPError 500) ∧
    (getRegistration staleDeps true (newResponseWriter []) registrationRequest).w.status
      = 200 ∧
    headerGet (getRegistration staleDeps true (newResponseWriter [])
      registrationRequest).w.sent (str "Content-Disposition")
      = str "attachment; filename=Spring_Classic.csv" ∧
    (getRegistration staleDeps true (newResponseWriter []) registrationRequest).w.body
      = str "Name,Squad\nAnn,1\nBob,1\n" := by
  decide

end Sns2psApi
